import Mathlib

/-
A formal model of the labelvalidator application (src/app.py).

The claims concern two functions:
  * `parse_openai_response` — the response normalizer: accepts either an
    already-structured value (a Python dict) or a string, replaces the
    narrow no-break space U+202F by an ordinary space, strips a leading
    markdown code fence when present, trims surrounding whitespace and
    parses the remainder with Python's `json.loads`; on a parse failure it
    prints the cleaned text and raises an exception wrapping the parse
    error message.
  * `background_process` — the background job: copies the uploaded asset
    into the processed directory (outside any try block), calls
    `analyze_image` inside a try block, and writes a result envelope that
    carries the filename, a timestamp and either a `description` field
    (the raw response text) or an `error` field (the failure message).

The embedding below mirrors the source; effects (the external API call,
the file copy, the clock) are passed in as explicit values, and the
persisted envelope and the raised exception are the function results.
-/

namespace LabelValidator

/-- JSON values as produced by Python's `json.loads`: `null`, booleans,
integers, floats (kept as their source literal, since no claim depends on
float arithmetic), strings, arrays, and objects (insertion-ordered key
lists; a repeated key updates the value in place, as a Python dict does). -/
inductive Json where
  | null : Json
  | bool (b : Bool) : Json
  | num (n : Int) : Json
  | flt (lit : String) : Json
  | str (s : String) : Json
  | arr (xs : List Json) : Json
  | obj (kvs : List (String × Json)) : Json

/-- The failure cases of Python's `json.loads`, mirroring the distinct
`JSONDecodeError` messages raised by `json/decoder.py` (positions are not
modelled).  `tooDeep` models Python's recursion limit. -/
inductive JsonErr where
  | expectingValue : JsonErr
  | extraData : JsonErr
  | expectingPropName : JsonErr
  | expectingColon : JsonErr
  | expectingComma : JsonErr
  | unterminatedString : JsonErr
  | invalidControlChar : JsonErr
  | invalidEscape : JsonErr
  | invalidUniEscape : JsonErr
  | tooDeep : JsonErr
  deriving DecidableEq, Repr

/-- The whitespace characters skipped between JSON tokens
(`json.decoder.WHITESPACE_STR` is a space, tab, newline, return). -/
def pyJsonWs (c : Char) : Bool :=
  c == ' ' || c == '\t' || c == '\n' || c == '\r'

/-- Drop inter-token whitespace, as `WHITESPACE.match` does. -/
def skipWs : List Char → List Char
  | [] => []
  | c :: cs => if pyJsonWs c then skipWs cs else c :: cs

/-- Value of a hexadecimal digit. -/
def hexVal? (c : Char) : Option Nat :=
  if '0' ≤ c && c ≤ '9' then some (c.toNat - 48)
  else if 'a' ≤ c && c ≤ 'f' then some (c.toNat - 87)
  else if 'A' ≤ c && c ≤ 'F' then some (c.toNat - 55)
  else none

/-- Decode four hex digits (the payload of a `\uXXXX` escape). -/
def decodeHex4 : List Char → Option (Nat × List Char)
  | h1 :: h2 :: h3 :: h4 :: rest =>
    match hexVal? h1, hexVal? h2, hexVal? h3, hexVal? h4 with
    | some a, some b, some c, some d => some ((((a * 16 + b) * 16 + c) * 16 + d), rest)
    | _, _, _, _ => none
  | _ => none

/-- The single-character escapes accepted by `json/decoder.py` (its
`BACKSLASH` table). -/
def escMap : Char → Option Char
  | '"' => some '"'
  | '\\' => some '\\'
  | '/' => some '/'
  | 'b' => some (Char.ofNat 8)
  | 'f' => some (Char.ofNat 12)
  | 'n' => some '\n'
  | 'r' => some '\r'
  | 't' => some '\t'
  | _ => none

/-- Scan a JSON string body after its opening quote, as `py_scanstring`
does in strict mode: plain characters are accumulated, raw control
characters below U+0020 are rejected, escapes are decoded via `escMap` or
`\uXXXX` (with surrogate-pair combination; a lone surrogate, which a
Python `str` can hold but a Lean `String` cannot, degrades to NUL). -/
def scanStr (fuel : Nat) (acc : List Char) (s : List Char) :
    Except JsonErr (String × List Char) :=
  match fuel with
  | 0 => .error .tooDeep
  | f + 1 =>
    match s with
    | [] => .error .unterminatedString
    | '"' :: rest => .ok (String.mk acc.reverse, rest)
    | '\\' :: rest =>
      match rest with
      | 'u' :: r2 =>
        match decodeHex4 r2 with
        | none => .error .invalidUniEscape
        | some (n, r3) =>
          if 0xd800 ≤ n && n ≤ 0xdbff then
            match r3 with
            | '\\' :: 'u' :: r4 =>
              match decodeHex4 r4 with
              | none => .error .invalidUniEscape
              | some (m, r5) =>
                if 0xdc00 ≤ m && m ≤ 0xdfff then
                  scanStr f (Char.ofNat (0x10000 + (n - 0xd800) * 0x400 + (m - 0xdc00)) :: acc) r5
                else
                  scanStr f (Char.ofNat n :: acc) r3
            | _ => scanStr f (Char.ofNat n :: acc) r3
          else
            scanStr f (Char.ofNat n :: acc) r3
      | c :: r2 =>
        match escMap c with
        | some ec => scanStr f (ec :: acc) r2
        | none => .error .invalidEscape
      | [] => .error .unterminatedString
    | c :: rest =>
      if c.toNat < 0x20 then .error .invalidControlChar
      else scanStr f (c :: acc) rest

/-- Digits to a natural number. -/
def digitsToNat (ds : List Char) : Nat :=
  ds.foldl (fun acc c => acc * 10 + (c.toNat - 48)) 0

/-- Match Python's `json.scanner.NUMBER_RE` at the head of the input:
an optional minus, an integer part that is `0` or a nonzero-led digit run,
then an optional fraction (`.` plus at least one digit) and an optional
exponent (`e`/`E`, optional sign, at least one digit); each optional group
is all-or-nothing, exactly as in the regex.  A pure integer becomes
`Json.num`; anything with a fraction or exponent becomes `Json.flt`
carrying the matched literal. -/
def parseNum (s : List Char) : Option (Json × List Char) :=
  let (negChars, s1) :=
    match s with
    | '-' :: r => (['-'], r)
    | _ => (([] : List Char), s)
  let intPart? : Option (List Char × List Char) :=
    match s1 with
    | '0' :: r => some (['0'], r)
    | c :: r =>
      if c.isDigit && c != '0' then
        let (ds, r2) := r.span Char.isDigit
        some (c :: ds, r2)
      else none
    | [] => none
  match intPart? with
  | none => none
  | some (ip, rest1) =>
    let (fracChars, rest2) :=
      match rest1 with
      | '.' :: r =>
        let (ds, r2) := r.span Char.isDigit
        if ds.isEmpty then (([] : List Char), rest1) else ('.' :: ds, r2)
      | _ => (([] : List Char), rest1)
    let (expChars, rest3) :=
      match rest2 with
      | e :: r =>
        if e == 'e' || e == 'E' then
          match r with
          | sgn :: r2 =>
            if sgn == '+' || sgn == '-' then
              let (ds, r3) := r2.span Char.isDigit
              if ds.isEmpty then (([] : List Char), rest2) else (e :: sgn :: ds, r3)
            else
              let (ds, r3) := r.span Char.isDigit
              if ds.isEmpty then (([] : List Char), rest2) else (e :: ds, r3)
          | [] => (([] : List Char), rest2)
        else (([] : List Char), rest2)
      | [] => (([] : List Char), rest2)
    if fracChars.isEmpty && expChars.isEmpty then
      let mag : Int := Int.ofNat (digitsToNat ip)
      some (.num (if negChars.isEmpty then mag else -mag), rest1)
    else
      some (.flt (String.mk (negChars ++ ip ++ fracChars ++ expChars)), rest3)

/-- Update an insertion-ordered key list the way a Python dict does:
an existing key keeps its position and takes the new value, a new key is
appended at the end. -/
def insertPair (kvs : List (String × Json)) (k : String) (v : Json) :
    List (String × Json) :=
  match kvs with
  | [] => [(k, v)]
  | (k', v') :: rest =>
    if k' = k then (k', v) :: rest else (k', v') :: insertPair rest k v

mutual

/-- `_scan_once` of `json/scanner.py` (pure-Python path): dispatch on the
first character; strings, objects, arrays, the literals `null` / `true` /
`false`, then a number, then `NaN` / `Infinity` / `-Infinity`; anything
else is "Expecting value". -/
def parseVal (fuel : Nat) (s : List Char) : Except JsonErr (Json × List Char) :=
  match fuel with
  | 0 => .error .tooDeep
  | f + 1 =>
    match s with
    | '"' :: r =>
      match scanStr f [] r with
      | .ok (str, r2) => .ok (.str str, r2)
      | .error e => .error e
    | '\x7b' :: r => parseObj f r
    | '[' :: r => parseArr f r
    | 'n' :: 'u' :: 'l' :: 'l' :: r => .ok (.null, r)
    | 't' :: 'r' :: 'u' :: 'e' :: r => .ok (.bool true, r)
    | 'f' :: 'a' :: 'l' :: 's' :: 'e' :: r => .ok (.bool false, r)
    | s =>
      match parseNum s with
      | some (j, r) => .ok (j, r)
      | none =>
        match s with
        | 'N' :: 'a' :: 'N' :: r => .ok (.flt "NaN", r)
        | 'I' :: 'n' :: 'f' :: 'i' :: 'n' :: 'i' :: 't' :: 'y' :: r =>
          .ok (.flt "Infinity", r)
        | '-' :: 'I' :: 'n' :: 'f' :: 'i' :: 'n' :: 'i' :: 't' :: 'y' :: r =>
          .ok (.flt "-Infinity", r)
        | _ => .error .expectingValue

/-- `JSONObject` of `json/decoder.py`, after the opening brace: an
immediately closing brace yields the empty object, otherwise a
double-quoted property name must follow. -/
def parseObj (fuel : Nat) (s : List Char) : Except JsonErr (Json × List Char) :=
  match fuel with
  | 0 => .error .tooDeep
  | f + 1 =>
    match skipWs s with
    | '\x7d' :: r => .ok (.obj [], r)
    | '"' :: r => parseMembers f [] r
    | _ => .error .expectingPropName

/-- The member loop of `JSONObject`: parse the key (the input starts just
after its opening quote), require a colon, parse the value, then either
close on a brace or require a comma followed by the next quoted key. -/
def parseMembers (fuel : Nat) (acc : List (String × Json)) (s : List Char) :
    Except JsonErr (Json × List Char) :=
  match fuel with
  | 0 => .error .tooDeep
  | f + 1 =>
    match scanStr f [] s with
    | .error e => .error e
    | .ok (key, r1) =>
      match skipWs r1 with
      | ':' :: r2 =>
        match parseVal f (skipWs r2) with
        | .error e => .error e
        | .ok (v, r3) =>
          let acc' := insertPair acc key v
          match skipWs r3 with
          | '\x7d' :: r4 => .ok (.obj acc', r4)
          | ',' :: r4 =>
            match skipWs r4 with
            | '"' :: r5 => parseMembers f acc' r5
            | _ => .error .expectingPropName
          | _ => .error .expectingComma
      | _ => .error .expectingColon

/-- `JSONArray` of `json/decoder.py`, after the opening bracket. -/
def parseArr (fuel : Nat) (s : List Char) : Except JsonErr (Json × List Char) :=
  match fuel with
  | 0 => .error .tooDeep
  | f + 1 =>
    match skipWs s with
    | ']' :: r => .ok (.arr [], r)
    | s' => parseElems f [] s'

/-- The element loop of `JSONArray`. -/
def parseElems (fuel : Nat) (acc : List Json) (s : List Char) :
    Except JsonErr (Json × List Char) :=
  match fuel with
  | 0 => .error .tooDeep
  | f + 1 =>
    match parseVal f s with
    | .error e => .error e
    | .ok (v, r1) =>
      let acc' := acc ++ [v]
      match skipWs r1 with
      | ']' :: r2 => .ok (.arr acc', r2)
      | ',' :: r2 => parseElems f acc' (skipWs r2)
      | _ => .error .expectingComma

end

/-- `json.loads` on a character list: skip leading whitespace, scan one
value, skip trailing whitespace, and reject anything left over as
"Extra data".  The fuel comfortably dominates the recursion depth (which
is at most twice the input length); Python's own recursion limit is
modelled by `JsonErr.tooDeep`. -/
def json_loadsL (l : List Char) : Except JsonErr Json :=
  match parseVal (2 * l.length + 16) (skipWs l) with
  | .error e => .error e
  | .ok (j, rest) =>
    match skipWs rest with
    | [] => .ok j
    | _ => .error .extraData

/-- Python's `json.loads` on a string. -/
def json_loads (s : String) : Except JsonErr Json :=
  json_loadsL s.data

/-! ## The response normalizer (`parse_openai_response`, app.py lines 32-56) -/

/-- `description.replace(chr(0x202f), chr(32))`: the narrow no-break space
is turned into an ordinary space.  Replacing a single character is a
character map. -/
def narrowToSpace (c : Char) : Char :=
  if c = '\u202F' then ' ' else c

/-- See `narrowToSpace`: the whole-string replacement. -/
def replaceNarrow (s : String) : String :=
  String.mk (s.data.map narrowToSpace)

/-- Python's `str.isspace` character set (the codepoints for which CPython
reports whitespace), used by `str.strip()` with no arguments. -/
def pyIsSpace (c : Char) : Bool :=
  let n := c.toNat
  (9 ≤ n && n ≤ 13) || (28 ≤ n && n ≤ 31) || n == 32 || n == 0x85 ||
    n == 0xa0 || n == 0x1680 || (0x2000 ≤ n && n ≤ 0x200a) ||
    n == 0x2028 || n == 0x2029 || n == 0x202f || n == 0x205f || n == 0x3000

/-- Python's `str.strip()`: remove leading and trailing whitespace. -/
def pyStrip (s : String) : String :=
  String.mk (((s.data.dropWhile pyIsSpace).reverse.dropWhile pyIsSpace).reverse)

/-- Python's slice `s[a:-b]` for literal `a`, `b` (with clamping when the
string is shorter than `a + b`). -/
def pySliceDropEnd (s : String) (a b : Nat) : String :=
  String.mk ((s.data.drop a).take (s.data.length - b - a))

/-- Python's `s.startswith(p)`. -/
def pyStartsWith (s p : String) : Bool :=
  p.data.isPrefixOf s.data

/-- The fence-stripping step of `parse_openai_response` (app.py 44-47):
a string starting with a tagged fence loses its first 8 and last 4
characters, one starting with an untagged fence loses its first 4 and
last 4; anything else is untouched. -/
def stripFence (s : String) : String :=
  if pyStartsWith s "```json\n" then pySliceDropEnd s 8 4
  else if pyStartsWith s "```\n" then pySliceDropEnd s 4 4
  else s

/-- The cleaning applied to a string input before `json.loads`
(app.py 41-50): narrow-space replacement, fence stripping, trimming. -/
def cleanText (s : String) : String :=
  pyStrip (stripFence (replaceNarrow s))

/-- The exception raised by `parse_openai_response` on a parse failure
(app.py 54-56).  The code prints the current value of `description` —
the *cleaned* text, since the variable was reassigned — and raises
`Exception(f-string of: Error parsing JSON response: str(e))`, which
carries only the parse error, not the input text. -/
structure ParseError where
  printed : String
  jsonError : JsonErr

/-- The argument of `parse_openai_response` as the app can produce it:
either an already-structured value (the `isinstance(description, dict)`
branch) or a raw string. -/
inductive RespInput where
  | dict (kvs : List (String × Json)) : RespInput
  | text (s : String) : RespInput

/-- `parse_openai_response` (app.py 32-56): a dict passes through
unchanged; a string is cleaned and parsed; a parse failure becomes a
`ParseError`. -/
def parse_openai_response : RespInput → Except ParseError Json
  | .dict kvs => .ok (.obj kvs)
  | .text s =>
    let cleaned := cleanText s
    match json_loads cleaned with
    | .ok j => .ok j
    | .error e => .error ⟨cleaned, e⟩

/-- Feed a normalizer result back through the normalizer (used to state
idempotence): an object result re-enters as a dict, a string result
re-enters as text. -/
def renormalize (r : Except ParseError Json) : Except ParseError Json :=
  match r with
  | .ok (.obj kvs) => parse_openai_response (.dict kvs)
  | .ok (.str s) => parse_openai_response (.text s)
  | r => r

/-! ## The background job (`background_process`, app.py 138-163) -/

/-- `analyze_image` (app.py 59-136) as seen from the job: the body reads
the file and performs the external API call; any exception is caught and
re-raised as `Exception(f-string of: Error analyzing image: str(e))`.
The external call's outcome is the explicit argument: `.ok text` when the
call returns response text, `.error msg` when it raises with message
`msg`. -/
def analyze_image (call : Except String String) : Except String String :=
  match call with
  | .ok t => .ok t
  | .error m => .error ("Error analyzing image: " ++ m)

/-- The persisted analysis envelope (the `results` dict written to
`processed/<filename>_analysis.json`): filename, timestamp, and an
optional `description` / `error` pair. -/
structure Envelope where
  filename : String
  description : Option String
  error : Option String
  timestamp : String
  deriving DecidableEq, Repr

/-- The observable steps of one background job, in execution order. -/
inductive JobEvent where
  | copyAsset : JobEvent
  | analyzeCall : JobEvent
  | writeEnvelope : JobEvent
  deriving DecidableEq, Repr

/-- `background_process` (app.py 138-163).  Effects are explicit inputs:
`copyRes` is the outcome of `shutil.copy2` (which runs *before* the try
block), `callRes` the outcome of the external API call, `now` the
timestamp string.  The first component of the result is `.ok env` when
the job writes envelope `env`, and `.error msg` when an exception escapes
the job uncaught; the second component is the trace of steps that
executed, in order. -/
def background_process (filename : String) (copyRes : Except String Unit)
    (callRes : Except String String) (now : String) :
    Except String Envelope × List JobEvent :=
  match copyRes with
  | .error m => (.error m, [.copyAsset])
  | .ok _ =>
    match analyze_image callRes with
    | .ok d =>
      (.ok { filename := filename, description := some d,
             error := none, timestamp := now },
       [.copyAsset, .analyzeCall, .writeEnvelope])
    | .error m =>
      (.ok { filename := filename, description := none,
             error := some m, timestamp := now },
       [.copyAsset, .analyzeCall, .writeEnvelope])

/-! ## Helper lemmas -/

/-- A list is a Boolean prefix of itself followed by anything. -/
theorem isPrefixOf_append_self (l rest : List Char) :
    l.isPrefixOf (l ++ rest) = true := by
  induction l with
  | nil => simp [List.isPrefixOf]
  | cons a as ih => simp [List.isPrefixOf, ih]

/-- `replaceNarrow` distributes over concatenation. -/
theorem replaceNarrow_append (a b : String) :
    replaceNarrow (a ++ b) = replaceNarrow a ++ replaceNarrow b := by
  obtain ⟨la⟩ := a
  obtain ⟨lb⟩ := b
  show String.mk ((la ++ lb).map narrowToSpace) =
    String.mk (la.map narrowToSpace ++ lb.map narrowToSpace)
  rw [List.map_append]

/-- Replacing the narrow space twice is the same as replacing it once. -/
theorem narrowToSpace_idem (c : Char) :
    narrowToSpace (narrowToSpace c) = narrowToSpace c := by
  by_cases h : c = '\u202F'
  · subst h; decide
  · simp [narrowToSpace, h]

/-- `replaceNarrow` is idempotent. -/
theorem replaceNarrow_idem (s : String) :
    replaceNarrow (replaceNarrow s) = replaceNarrow s := by
  obtain ⟨l⟩ := s
  show String.mk ((l.map narrowToSpace).map narrowToSpace) =
    String.mk (l.map narrowToSpace)
  rw [List.map_map]
  congr 1
  induction l with
  | nil => rfl
  | cons c cs ih => simp only [List.map_cons, Function.comp, narrowToSpace_idem, ih]

/-- A string wrapped in the tagged fence starts with the tagged fence. -/
theorem startsJson_wrap (x : String) :
    pyStartsWith ("```json\n" ++ x ++ "\n```") "```json\n" = true := by
  obtain ⟨l⟩ := x
  show ("```json\n".data).isPrefixOf (("```json\n".data ++ l) ++ "\n```".data) = true
  rw [List.append_assoc]
  exact isPrefixOf_append_self _ _

/-- A string wrapped in the untagged fence starts with the untagged
fence. -/
theorem startsPlain_wrap (x : String) :
    pyStartsWith ("```\n" ++ x ++ "\n```") "```\n" = true := by
  obtain ⟨l⟩ := x
  show ("```\n".data).isPrefixOf (("```\n".data ++ l) ++ "\n```".data) = true
  rw [List.append_assoc]
  exact isPrefixOf_append_self _ _

/-- A string wrapped in the untagged fence does not start with the tagged
fence (its fourth character is a newline, not `j`). -/
theorem startsPlain_not_json (x : String) :
    pyStartsWith ("```\n" ++ x ++ "\n```") "```json\n" = false := by
  obtain ⟨l⟩ := x
  rfl

/-- Dropping a `a`-character prefix and a `b`-character suffix from
around a list recovers the list. -/
theorem slice_wrap_core (a b : Nat) (pre suf l : List Char)
    (ha : pre.length = a) (hb : suf.length = b) :
    (((pre ++ l) ++ suf).drop a).take (((pre ++ l) ++ suf).length - b - a) = l := by
  have hlen : ((pre ++ l) ++ suf).length - b - a = l.length := by
    simp only [List.length_append, ha, hb]
    omega
  rw [hlen, List.append_assoc, ← ha, List.drop_left, List.take_left]

/-- Python's `s[8:-4]` on a tagged-fence-wrapped string recovers the
wrapped content. -/
theorem slice_json_wrap (x : String) :
    pySliceDropEnd ("```json\n" ++ x ++ "\n```") 8 4 = x := by
  obtain ⟨l⟩ := x
  show String.mk
      (((("```json\n".data ++ l) ++ "\n```".data).drop 8).take
        ((("```json\n".data ++ l) ++ "\n```".data).length - 4 - 8)) = String.mk l
  rw [slice_wrap_core 8 4 ("```json\n".data) ("\n```".data) l rfl rfl]

/-- Python's `s[4:-4]` on an untagged-fence-wrapped string recovers the
wrapped content. -/
theorem slice_plain_wrap (x : String) :
    pySliceDropEnd ("```\n" ++ x ++ "\n```") 4 4 = x := by
  obtain ⟨l⟩ := x
  show String.mk
      (((("```\n".data ++ l) ++ "\n```".data).drop 4).take
        ((("```\n".data ++ l) ++ "\n```".data).length - 4 - 4)) = String.mk l
  rw [slice_wrap_core 4 4 ("```\n".data) ("\n```".data) l rfl rfl]

/-- Fence stripping undoes tagged-fence wrapping. -/
theorem stripFence_json_wrap (x : String) :
    stripFence ("```json\n" ++ x ++ "\n```") = x := by
  simp [stripFence, startsJson_wrap, slice_json_wrap]

/-- Fence stripping undoes untagged-fence wrapping. -/
theorem stripFence_plain_wrap (x : String) :
    stripFence ("```\n" ++ x ++ "\n```") = x := by
  simp [stripFence, startsPlain_not_json, startsPlain_wrap, slice_plain_wrap]

/-- Fence stripping leaves a string that starts with neither fence
untouched. -/
theorem stripFence_id (x : String)
    (h1 : pyStartsWith x "```json\n" = false)
    (h2 : pyStartsWith x "```\n" = false) :
    stripFence x = x := by
  simp [stripFence, h1, h2]

/-- The normalizer's result on a string input depends only on the cleaned
text. -/
theorem parse_text_congr (a b : String) (h : cleanText a = cleanText b) :
    parse_openai_response (.text a) = parse_openai_response (.text b) := by
  simp only [parse_openai_response, h]

/-- Cleaning a tagged-fence-wrapped string equals cleaning the content,
provided the (narrow-space-replaced) content does not itself start with a
fence. -/
theorem cleanText_json_wrap (c : String)
    (h1 : pyStartsWith (replaceNarrow c) "```json\n" = false)
    (h2 : pyStartsWith (replaceNarrow c) "```\n" = false) :
    cleanText ("```json\n" ++ c ++ "\n```") = cleanText c := by
  unfold cleanText
  rw [replaceNarrow_append, replaceNarrow_append,
    show replaceNarrow "```json\n" = "```json\n" from rfl,
    show replaceNarrow "\n```" = "\n```" from rfl,
    stripFence_json_wrap, stripFence_id _ h1 h2]

/-- Cleaning an untagged-fence-wrapped string equals cleaning the
content, under the same proviso. -/
theorem cleanText_plain_wrap (c : String)
    (h1 : pyStartsWith (replaceNarrow c) "```json\n" = false)
    (h2 : pyStartsWith (replaceNarrow c) "```\n" = false) :
    cleanText ("```\n" ++ c ++ "\n```") = cleanText c := by
  unfold cleanText
  rw [replaceNarrow_append, replaceNarrow_append,
    show replaceNarrow "```\n" = "```\n" from rfl,
    show replaceNarrow "\n```" = "\n```" from rfl,
    stripFence_plain_wrap, stripFence_id _ h1 h2]

/-! ## Claim theorems -/

/-- C1: every envelope the background job persists carries the filename
and the timestamp, and exactly one of `description` / `error`:
`description` holding the response text when the external call returns,
`error` holding the failure message when it raises. -/
theorem background_envelope_exactly_one (fn : String) (cr : Except String Unit)
    (ar : Except String String) (now : String) (env : Envelope)
    (h : (background_process fn cr ar now).1 = .ok env) :
    env.filename = fn ∧ env.timestamp = now ∧
    ((∃ t, ar = .ok t ∧ env.description = some t ∧ env.error = none) ∨
     (∃ m, ar = .error m ∧ env.description = none ∧
        env.error = some ("Error analyzing image: " ++ m))) := by
  cases cr with
  | error m => simp [background_process] at h
  | ok u =>
    cases ar with
    | ok t =>
      have he : env = ⟨fn, some t, none, now⟩ := by
        simpa [background_process, analyze_image] using h.symm
      subst he
      exact ⟨rfl, rfl, .inl ⟨t, rfl, rfl, rfl⟩⟩
    | error m =>
      have he : env = ⟨fn, none, some ("Error analyzing image: " ++ m), now⟩ := by
        simpa [background_process, analyze_image] using h.symm
      subst he
      exact ⟨rfl, rfl, .inr ⟨m, rfl, rfl, rfl⟩⟩

/-- C1 witness: a successful run persists a description-only envelope. -/
theorem background_envelope_exactly_one_witness :
    (background_process "x.jpg" (.ok ()) (.ok "d") "t0").1 =
      .ok ⟨"x.jpg", some "d", none, "t0"⟩ ∧
    ((⟨"x.jpg", some "d", none, "t0"⟩ : Envelope).filename = "x.jpg" ∧
     (⟨"x.jpg", some "d", none, "t0"⟩ : Envelope).timestamp = "t0" ∧
     ((∃ t, (Except.ok "d" : Except String String) = .ok t ∧
        (⟨"x.jpg", some "d", none, "t0"⟩ : Envelope).description = some t ∧
        (⟨"x.jpg", some "d", none, "t0"⟩ : Envelope).error = none) ∨
      (∃ m, (Except.ok "d" : Except String String) = .error m ∧
        (⟨"x.jpg", some "d", none, "t0"⟩ : Envelope).description = none ∧
        (⟨"x.jpg", some "d", none, "t0"⟩ : Envelope).error =
          some ("Error analyzing image: " ++ m)))) :=
  ⟨rfl, background_envelope_exactly_one "x.jpg" (.ok ()) (.ok "d") "t0" _ rfl⟩

/-- C2 counterexample: when the unwrapped content itself begins with a
fence, normalizing the wrapped input is NOT the same as normalizing the
unwrapped content — the fence is stripped only once, so the claim's
universal statement fails. -/
theorem fence_strip_nested_counterexample :
    parse_openai_response (.text ("```json\n" ++ "```json\n1\n```" ++ "\n```")) =
      .error ⟨"```json\n1\n```", .expectingValue⟩ ∧
    parse_openai_response (.text "```json\n1\n```") = .ok (.num 1) ∧
    (Except.error ⟨"```json\n1\n```", JsonErr.expectingValue⟩ :
        Except ParseError Json) ≠ .ok (.num 1) :=
  ⟨rfl, rfl, fun h => Except.noConfusion h⟩

/-- C2 (amended): for content that does not itself begin with a fence
marker after narrow-space replacement, wrapping in either recognized
fence style changes nothing: the normalizer strips the fence and yields
the same result as normalizing the unwrapped content. -/
theorem fence_strip_equiv (c : String)
    (h1 : pyStartsWith (replaceNarrow c) "```json\n" = false)
    (h2 : pyStartsWith (replaceNarrow c) "```\n" = false) :
    parse_openai_response (.text ("```json\n" ++ c ++ "\n```")) =
      parse_openai_response (.text c) ∧
    parse_openai_response (.text ("```\n" ++ c ++ "\n```")) =
      parse_openai_response (.text c) :=
  ⟨parse_text_congr _ _ (cleanText_json_wrap c h1 h2),
   parse_text_congr _ _ (cleanText_plain_wrap c h1 h2)⟩

/-- C2 witness, including the spec's concrete scenario 1. -/
theorem fence_strip_equiv_witness :
    pyStartsWith (replaceNarrow "\x7b\"a\":1\x7d") "```json\n" = false ∧
    pyStartsWith (replaceNarrow "\x7b\"a\":1\x7d") "```\n" = false ∧
    (parse_openai_response (.text ("```json\n" ++ "\x7b\"a\":1\x7d" ++ "\n```")) =
       parse_openai_response (.text "\x7b\"a\":1\x7d") ∧
     parse_openai_response (.text ("```\n" ++ "\x7b\"a\":1\x7d" ++ "\n```")) =
       parse_openai_response (.text "\x7b\"a\":1\x7d")) ∧
    parse_openai_response (.text "```json\n\x7b\"a\":1\x7d\n```") =
      .ok (.obj [("a", .num 1)]) :=
  ⟨rfl, rfl, fence_strip_equiv "\x7b\"a\":1\x7d" rfl rfl, rfl⟩

/-- C3 counterexample: on a fenced malformed input the raised error holds
the CLEANED text, not the original raw input; nothing in the error value
carries the raw text "(backtick fence)not json(backtick fence)". -/
theorem parse_error_raw_counterexample :
    parse_openai_response (.text "```json\nnot json\n```") =
      .error ⟨"not json", .expectingValue⟩ ∧
    "not json" ≠ "```json\nnot json\n```" :=
  ⟨rfl, by decide⟩

/-- C3 (amended): whenever the cleaned text fails to parse, the
normalizer fails with a `ParseError` that carries the parse failure and
the cleaned (fence-stripped, trimmed) text printed for diagnostics — not
the original raw input. -/
theorem parse_error_diagnostics (s : String) (e : JsonErr)
    (h : json_loads (cleanText s) = .error e) :
    parse_openai_response (.text s) = .error ⟨cleanText s, e⟩ := by
  simp only [parse_openai_response, h]

/-- C3 witness. -/
theorem parse_error_diagnostics_witness :
    json_loads (cleanText "not json") = .error .expectingValue ∧
    parse_openai_response (.text "not json") =
      .error ⟨"not json", .expectingValue⟩ :=
  ⟨rfl, parse_error_diagnostics "not json" .expectingValue rfl⟩

/-- C4 counterexample: a failure in the asset-copy step (which runs
before the try block) is NOT caught: `background_process` re-raises it
(the first component is the propagated exception, not an envelope) and
the trace shows the job stopped after the copy attempt with no envelope
write. -/
theorem copy_failure_propagates_counterexample :
    (background_process "x.jpg" (.error "copy failed") (.ok "resp") "t0").1 =
      .error "copy failed" ∧
    (background_process "x.jpg" (.error "copy failed") (.ok "resp") "t0").2 =
      [JobEvent.copyAsset] :=
  ⟨rfl, rfl⟩

/-- C4 (amended): failures of the external analysis call are caught and
recorded as error-bearing envelopes and never propagate; failures of the
asset copy step are not caught — they propagate out of the job and no
envelope is written. -/
theorem failure_handling_split (fn now : String) :
    (∀ m : String, ∀ ar : Except String String,
       (background_process fn (.error m) ar now).1 = .error m ∧
       (background_process fn (.error m) ar now).2 = [JobEvent.copyAsset]) ∧
    (∀ m : String,
       (background_process fn (.ok ()) (.error m) now).1 =
         .ok ⟨fn, none, some ("Error analyzing image: " ++ m), now⟩) :=
  ⟨fun _ _ => ⟨rfl, rfl⟩, fun _ => rfl⟩

/-- C5 counterexample: the no-break space U+00A0 is NOT normalized to an
ordinary space — inside the text it reaches the parser and causes a
failure where an ordinary space succeeds, so the claim's "more generally
non-breaking/narrow unicode whitespace is normalized" part fails. -/
theorem nbsp_not_normalized_counterexample :
    parse_openai_response (.text "\x7b\u00A0\"a\":1\x7d") =
      .error ⟨"\x7b\u00A0\"a\":1\x7d", .expectingPropName⟩ ∧
    parse_openai_response (.text "\x7b \"a\":1\x7d") = .ok (.obj [("a", .num 1)]) :=
  ⟨rfl, rfl⟩

/-- C5 (amended): the narrow no-break space U+202F — and only that
character — is treated identically to an ordinary space: normalizing any
string equals normalizing the string with every U+202F replaced by a
space. -/
theorem narrow_space_equiv (s : String) :
    parse_openai_response (.text s) =
      parse_openai_response (.text (replaceNarrow s)) :=
  parse_text_congr _ _ (by unfold cleanText; rw [replaceNarrow_idem])

/-- C6: a structured (dict) input passes through the normalizer
unchanged, and renormalizing the result changes nothing — the normalizer
is idempotent on such inputs. -/
theorem dict_passthrough_idempotent (kvs : List (String × Json)) :
    parse_openai_response (.dict kvs) = .ok (.obj kvs) ∧
    renormalize (parse_openai_response (.dict kvs)) =
      parse_openai_response (.dict kvs) :=
  ⟨rfl, rfl⟩

/-- C7: the job stores the external call's response text verbatim in
`description` for every response text, and a later read-time
normalization of the stored text "not json" fails with a `ParseError`. -/
theorem description_stored_verbatim (fn now t : String) :
    (background_process fn (.ok ()) (.ok t) now).1 =
      .ok ⟨fn, some t, none, now⟩ ∧
    parse_openai_response (.text "not json") =
      .error ⟨"not json", .expectingValue⟩ :=
  ⟨rfl, rfl⟩

/-- C8: an unfenced text input (no narrow spaces, no leading fence) whose
trimmed form parses successfully normalizes to the parse of the trimmed
text. -/
theorem whitespace_trim_parse (s : String) (j : Json)
    (h1 : pyStartsWith (replaceNarrow s) "```json\n" = false)
    (h2 : pyStartsWith (replaceNarrow s) "```\n" = false)
    (h3 : replaceNarrow s = s)
    (h4 : json_loads (pyStrip s) = .ok j) :
    parse_openai_response (.text s) = .ok j := by
  have hc : cleanText s = pyStrip s := by
    unfold cleanText
    rw [h3, stripFence_id s (h3 ▸ h1) (h3 ▸ h2)]
  simp only [parse_openai_response, hc, h4]

/-- C8 witness: the spec's concrete scenario 2. -/
theorem whitespace_trim_parse_witness :
    pyStartsWith (replaceNarrow "  \x7b\"a\":1\x7d  ") "```json\n" = false ∧
    pyStartsWith (replaceNarrow "  \x7b\"a\":1\x7d  ") "```\n" = false ∧
    replaceNarrow "  \x7b\"a\":1\x7d  " = "  \x7b\"a\":1\x7d  " ∧
    json_loads (pyStrip "  \x7b\"a\":1\x7d  ") = .ok (.obj [("a", .num 1)]) ∧
    parse_openai_response (.text "  \x7b\"a\":1\x7d  ") = .ok (.obj [("a", .num 1)]) :=
  ⟨rfl, rfl, rfl, rfl,
   whitespace_trim_parse "  \x7b\"a\":1\x7d  " (.obj [("a", .num 1)]) rfl rfl rfl rfl⟩

/-- C9: within one job the steps happen in a fixed order — the trace is
either the full run `[copyAsset, analyzeCall, writeEnvelope]` (copy
succeeded; the asset copy happens before the external call, which happens
before the envelope write), or just `[copyAsset]` (copy raised and
nothing later ran). -/
theorem job_step_order (fn : String) (cr : Except String Unit)
    (ar : Except String String) (now : String) :
    (∃ m, cr = .error m ∧
       (background_process fn cr ar now).2 = [JobEvent.copyAsset]) ∨
    (cr = .ok () ∧
       (background_process fn cr ar now).2 =
         [JobEvent.copyAsset, JobEvent.analyzeCall, JobEvent.writeEnvelope]) := by
  cases cr with
  | error m => exact .inl ⟨m, rfl, rfl⟩
  | ok u =>
    cases u
    refine .inr ⟨rfl, ?_⟩
    cases ar <;> rfl

/-- C10: for every string input whose cleaned text parses successfully,
the normalizer succeeds and returns exactly the parsed value — parse
success is the only check, so nothing constrains the result to be a
record: numbers, arrays, strings and `null` all pass through. -/
theorem nonrecord_values_pass (s : String) (j : Json)
    (h : json_loads (cleanText s) = .ok j) :
    parse_openai_response (.text s) = .ok j := by
  simp only [parse_openai_response, h]

/-- C10 witness: the universal instantiated at `"42"`, plus the other
non-record example values — an array, a string and `null`. -/
theorem nonrecord_values_pass_witness :
    json_loads (cleanText "42") = .ok (.num 42) ∧
    parse_openai_response (.text "42") = .ok (.num 42) ∧
    parse_openai_response (.text "[1,2]") = .ok (.arr [.num 1, .num 2]) ∧
    parse_openai_response (.text "\"hello\"") = .ok (.str "hello") ∧
    parse_openai_response (.text "null") = .ok .null :=
  ⟨rfl, nonrecord_values_pass "42" (.num 42) rfl, rfl, rfl, rfl⟩

end LabelValidator
